import Mathlib

/-!
Verification of `sphinx_celery/apicheck.py` (Sphinx autodoc coverage checker).

This file is a shallow embedding of the module: the builder's pure logic is
translated into executable Lean definitions, and the impure boundaries
(`importlib.import_module`, `os.walk`, the Sphinx build environment's
`domaindata`, the current working directory) are supplied through an explicit
environment record.  Python strings are modelled by Lean `String` (a list of
characters), matching Python's code-point indexing; the Python string/path
primitives the module uses (`startswith`, `endswith`, slicing, `str.replace`,
`str.split`, `str.join`, `os.path.dirname` / `basename` / `join` /
`normpath` / `abspath`) are each given a faithful character-level definition.

The `re` module is modelled by a small regular-expression engine (syntax tree,
Brzozowski-derivative matcher, and a compiler from pattern strings) covering
the fragment of Python regex syntax exercised by this extension: literal
characters, escaped literals, `.`, the postfix operators `*` `+` `?` and their
non-greedy variants, a leading `^` anchor, and a trailing `$` anchor.  Strings
outside this fragment are treated as failing to compile (as, for example,
Python rejects a pattern with an unmatched parenthesis).  `$` is modelled as
strict end-of-input; `.` does not match a newline, as in Python without
`re.DOTALL`.  `regex.match` (matching that must start at offset zero but may
end anywhere, unless the pattern ends in a genuine `$` anchor) is modelled by
`Pattern.rmatch`.
-/

/-! ## Python string primitives -/

/-- Python `s.startswith(pre)`: `pre` is a prefix of `s` (by code points). -/
def pyStartsWith (s pre : String) : Bool :=
  decide (s.data.take pre.data.length = pre.data)

/-- Python `s.endswith(suf)`: `suf` is a suffix of `s` (by code points). -/
def pyEndsWith (s suf : String) : Bool :=
  decide (s.data.reverse.take suf.data.length = suf.data.reverse)

/-- Python `s.replace(old, new)` for one-character `old`/`new`. -/
def pyReplaceChar (s : String) (old new : Char) : String :=
  ⟨s.data.map (fun c => if c = old then new else c)⟩

/-- Python slicing `s[n:]` (by code points). -/
def pySliceFrom (s : String) (n : Nat) : String :=
  ⟨s.data.drop n⟩

/-- Python slicing `s[:-n]` for `n > 0` (by code points). -/
def pyDropRight (s : String) (n : Nat) : String :=
  ⟨s.data.take (s.data.length - n)⟩

/-- Python `str.lower()` (ASCII case folding suffices for the names in play). -/
def pyLower (s : String) : String :=
  ⟨s.data.map Char.toLower⟩

/-- Python single-character string repetition `c * n`. -/
def repeatChar (c : Char) (n : Nat) : String :=
  ⟨List.replicate n c⟩

/-- Python `sep.join(parts)`. -/
def pyJoin (sep : String) : List String → String
  | [] => ""
  | [x] => x
  | x :: y :: rest => x ++ sep ++ pyJoin sep (y :: rest)

/-- Python `s.split(sep)` for a one-character separator, over character lists
(`"".split "."` gives `[[]]`, matching Python's `[""]`). -/
def splitOnChar (sep : Char) : List Char → List (List Char)
  | [] => [[]]
  | c :: rest =>
    match splitOnChar sep rest with
    | [] => [[]]
    | g :: gs => if c = sep then [] :: g :: gs else (c :: g) :: gs

/-! ## POSIX path primitives (`os.path` on the posix flavour) -/

/-- `os.path.dirname`: everything up to the last `/`, with trailing slashes
stripped unless the result consists only of slashes. -/
def dirname (p : String) : String :=
  let head := (p.data.reverse.dropWhile (fun c => decide (c ≠ '/'))).reverse
  if head.all (fun c => decide (c = '/')) then ⟨head⟩
  else ⟨(head.reverse.dropWhile (fun c => decide (c = '/'))).reverse⟩

/-- `os.path.basename`: everything after the last `/`. -/
def basename (p : String) : String :=
  ⟨(p.data.reverse.takeWhile (fun c => decide (c ≠ '/'))).reverse⟩

/-- `os.path.join` for two components. -/
def pathJoin (a b : String) : String :=
  if pyStartsWith b "/" then b
  else if decide (a = "") || pyEndsWith a "/" then a ++ b
  else a ++ "/" ++ b

/-- `os.path.join` folded over further components. -/
def pathJoinMany (a : String) (parts : List String) : String :=
  parts.foldl pathJoin a

/-- `os.path.normpath` (posix): collapse `.`/empty components and resolve
`..` components (kept literally at the front of a relative path, dropped at
the root of an absolute path).  The double-initial-slash special case of
POSIX is not modelled. -/
def normpath (p : String) : String :=
  if decide (p = "") then "." else
  let initialSlash := pyStartsWith p "/"
  let comps := splitOnChar '/' p.data
  let newComps := comps.foldl
    (fun acc comp =>
      if decide (comp = []) || decide (comp = ['.']) then acc
      else if decide (comp ≠ ['.', '.'])
           || (decide (initialSlash = false) && decide (acc = []))
           || (match acc.getLast? with
               | some l => decide (l = ['.', '.'])
               | none => false) then acc ++ [comp]
      else if decide (acc ≠ []) then acc.dropLast
      else acc) []
  let path := pyJoin "/" (newComps.map (fun l => (⟨l⟩ : String)))
  let path := if initialSlash then "/" ++ path else path
  if decide (path = "") then "." else path

/-- `os.path.abspath` relative to a current working directory `cwd`. -/
def abspath (cwd p : String) : String :=
  normpath (pathJoin cwd p)

/-! ## A model of the fragment of Python `re` used by the checker -/

/-- Regular-expression syntax trees. -/
inductive Regex where
  | emp : Regex
  | eps : Regex
  | lit : Char → Regex
  | anyc : Regex
  | alt : Regex → Regex → Regex
  | cat : Regex → Regex → Regex
  | star : Regex → Regex
deriving DecidableEq

/-- Does the regex accept the empty string? -/
def Regex.nullable : Regex → Bool
  | .emp => false
  | .eps => true
  | .lit _ => false
  | .anyc => false
  | .alt a b => a.nullable || b.nullable
  | .cat a b => a.nullable && b.nullable
  | .star _ => true

/-- Brzozowski derivative with respect to one character.  `.` does not match
a newline (Python semantics without `re.DOTALL`). -/
def Regex.derivc : Regex → Char → Regex
  | .emp, _ => .emp
  | .eps, _ => .emp
  | .lit c, x => if x = c then .eps else .emp
  | .anyc, x => if x = '\n' then .emp else .eps
  | .alt a b, x => .alt (a.derivc x) (b.derivc x)
  | .cat a b, x =>
    if a.nullable then .alt (.cat (a.derivc x) b) (b.derivc x)
    else .cat (a.derivc x) b
  | .star r, x => .cat (r.derivc x) (.star r)

/-- Whole-string matching via derivatives. -/
def Regex.fullmatch : Regex → List Char → Bool
  | r, [] => r.nullable
  | r, c :: cs => Regex.fullmatch (r.derivc c) cs

/-- Matching of some (possibly empty) prefix of the input. -/
def Regex.prefixmatch : Regex → List Char → Bool
  | r, [] => r.nullable
  | r, c :: cs => r.nullable || Regex.prefixmatch (r.derivc c) cs

/-- A compiled pattern: the body of the pattern with the anchors removed,
and whether the pattern ended in a genuine (unescaped) `$` anchor. -/
structure Pattern where
  core : Regex
  anchEnd : Bool
deriving DecidableEq

/-- Model of `regex.match(m)` viewed as a Boolean: the match must start at
offset zero; it must consume all of `m` exactly when the pattern ended in a
genuine `$` anchor. -/
def Pattern.rmatch (p : Pattern) (m : String) : Bool :=
  if p.anchEnd then p.core.fullmatch m.data else p.core.prefixmatch m.data

/-- Characters that are not bare literals in the modelled regex fragment. -/
def regexSpecials : List Char :=
  ['^', '$', '*', '+', '?', '(', ')', '[', ']', '{', '}', '|', '\\']

/-- Parse one atom: `.`, an escaped literal (escapes of alphanumerics, i.e.
character classes, are outside the modelled fragment), or a bare literal. -/
def parseAtom : List Char → Option (Regex × List Char)
  | [] => none
  | '.' :: rest => some (.anyc, rest)
  | '\\' :: [] => none
  | '\\' :: c :: rest => if c.isAlphanum then none else some (.lit c, rest)
  | c :: rest => if decide (c ∈ regexSpecials) then none else some (.lit c, rest)

/-- Apply a postfix repetition operator (with optional non-greedy `?`, which
does not change which strings match). -/
def parsePostfix (r : Regex) : List Char → Regex × List Char
  | '*' :: '?' :: rest => (.star r, rest)
  | '*' :: rest => (.star r, rest)
  | '+' :: '?' :: rest => (.cat r (.star r), rest)
  | '+' :: rest => (.cat r (.star r), rest)
  | '?' :: '?' :: rest => (.alt r .eps, rest)
  | '?' :: rest => (.alt r .eps, rest)
  | rest => (r, rest)

/-- Parse a sequence of atoms; a final `$` becomes the end-anchor flag.  The
fuel argument only serves termination and is always supplied larger than the
input length, which every recursive step strictly decreases. -/
def parseSeq : Nat → List Char → Option (Regex × Bool)
  | 0, _ => none
  | _ + 1, [] => some (.eps, false)
  | _ + 1, ['$'] => some (.eps, true)
  | _ + 1, '$' :: _ :: _ => none
  | fuel + 1, cs =>
    match parseAtom cs with
    | none => none
    | some (a, rest) =>
      let (a2, rest2) := parsePostfix a rest
      match parseSeq fuel rest2 with
      | none => none
      | some (r, anch) => some (.cat a2 r, anch)

/-- Model of `re.compile`: a leading `^` is a no-op for `re.match` (which
already anchors at offset zero) and is stripped; the remainder is parsed.
Returns `none` when Python's `re.compile` would raise (or when the pattern
falls outside the modelled fragment). -/
def reCompile (s : String) : Option Pattern :=
  let cs :=
    match s.data with
    | '^' :: rest => rest
    | cs => cs
  match parseSeq (cs.length + 1) cs with
  | some (r, anch) => some ⟨r, anch⟩
  | none => none

/-! ## Data carried by the build environment -/

/-- The `__name__` and `__file__` of an importable module. -/
structure PyModule where
  name : String
  file : String
deriving DecidableEq

/-- The impure surface the builder runs against: the working directory,
`importlib.import_module` (`none` models an `ImportError`), `os.walk`
(the ordered `(dirpath, filenames)` listing rooted at an absolute path;
a nonexistent path yields the empty listing, as `os.walk` does), and the
keys of `self.env.domaindata[domain]['modules']`. -/
structure Env where
  cwd : String
  imports : String → Option PyModule
  walk : String → List (String × List String)
  domaindata : String → List String

/-! ## Module constants (apicheck.py lines 73-95) -/

/-- `DEFAULT_IGNORE = [r'.*?\.tests.*']`. -/
def DEFAULT_IGNORE : List String := [".*?\\.tests.*"]

/-- `TITLEHEADER = '='`. -/
def TITLEHEADER : Char := '='

/-- `SUBHEADER = '-'`. -/
def SUBHEADER : Char := '-'

/-- `ERR_MISSING`. -/
def ERR_MISSING : String := "Undocumented Autodoc Modules"

/-- `OK_STATUS`. -/
def OK_STATUS : String := "OK: All modules documented :o)"

/-- Modelled from the spec: `sphinx.util.console.red` wraps its argument in
terminal colour escape codes; colourisation is modelled as the identity since
it is presentation-only. -/
def red (s : String) : String := s

/-- Modelled from the spec: `sphinx.util.console.bold`, identity (see `red`). -/
def bold (s : String) : String := s

/-- Modelled from the spec: `sphinx.util.console.darkgreen`, identity (see `red`). -/
def darkgreen (s : String) : String := s

/-- Modelled from the spec: `sphinx.util.console.green`, identity (see `red`). -/
def green (s : String) : String := s

/-- `title(s)` with its default `spacing=2`, `sep=TITLEHEADER` (the only way
the module calls it): a rule of `=` of width `len(s)+2`, the title padded by
one space on each side, and the rule again, joined by newlines. -/
def title (s : String) : String :=
  pyJoin "\n"
    [repeatChar TITLEHEADER (s.length + 2),
     " " ++ red s ++ " ",
     repeatChar TITLEHEADER (s.length + 2)]

/-- `header(s)` with its default `sep=SUBHEADER`: the bolded text over a rule
of `-` of the same width. -/
def header (s : String) : String :=
  pyJoin "\n" [bold s, repeatChar SUBHEADER s.length]

/-- Rendering of the `NOK_STATUS` template (a leading newline, the title, a
blank line, then the per-domain sections; the template's trailing
backslash-newline adds nothing). -/
def NOK_STATUS_render (t undocumented : String) : String :=
  "\n" ++ t ++ "\n\n" ++ undocumented

/-- Rendering of the `DOMAIN_FORMAT` template: the domain header, a blank
line, the module bullet list, and a trailing newline. -/
def DOMAIN_FORMAT_render (domain modules : String) : String :=
  domain ++ "\n\n" ++ modules ++ "\n"

/-! ## `find_python_modules` (apicheck.py lines 110-126) -/

/-- Lines 113-118: resolve the distribution root of a loaded module — start
from `dirname(__file__)`, go up one `os.pardir` per dot in `__name__`, and
take `os.path.abspath` of the result. -/
def dist_root (cwd : String) (m : PyModule) : String :=
  let current_dist_depth := (splitOnChar '.' m.name.data).length - 1
  let current_dist := pathJoinMany (dirname m.file) (List.replicate current_dist_depth "..")
  abspath cwd current_dist

/-- The loop body of `find_python_modules` (lines 120-126): for every walked
directory compute `package = (dist_name + dirpath[len(abs):]).replace('/', '.')`;
if the directory holds `__init__.py` yield `package` and then, for every other
`.py` file, `'.'.join([package, filename])[:-3]`. -/
def discoverPy (dist_name abs : String) (w : List (String × List String)) : List String :=
  (w.map (fun dp =>
    let package := pyReplaceChar (dist_name ++ pySliceFrom dp.1 abs.length) '/' '.'
    if decide ("__init__.py" ∈ dp.2) then
      package :: dp.2.filterMap (fun f =>
        if pyEndsWith f ".py" && decide (f ≠ "__init__.py") then
          some (pyDropRight (package ++ "." ++ f) 3)
        else none)
    else [])).flatten

/-- `find_python_modules(package)`: import the package by name (the module
is only ever handed the configured dotted name), compute the distribution
root and its basename, and walk it.  An unresolvable name is the
`ImportError` that `importlib.import_module` raises. -/
def find_python_modules (env : Env) (package : String) : Except String (List String) :=
  match env.imports package with
  | none => .error ("ImportError: No module named " ++ package)
  | some m =>
    let abs := dist_root env.cwd m
    let dist_name := basename abs
    .ok (discoverPy dist_name abs (env.walk abs))

/-! ## The builder (apicheck.py lines 129-215) -/

/-- The configuration values the builder reads (`conf.py` level). -/
structure Config where
  apicheck_ignore_modules : List String
  apicheck_domains : List String
  apicheck_package : Option String
  project : String
deriving DecidableEq

/-- The builder's own state: the compiled ignore patterns — `None` entries
included, exactly as `compile_regex` can produce them —, the domains to
check, the resolved package name, and the `undocumented` accumulator
(`defaultdict(list)`, modelled as an insertion-ordered association list). -/
structure APICheckBuilder where
  ignore_patterns : List (Option Pattern)
  check_domains : List String
  check_package : String
  undocumented : List (String × List String)
deriving DecidableEq

/-- Read of `undocumented[domain]`: the stored list, or `[]` for an absent
key (`defaultdict(list)`; the entry creation this read performs in Python
never changes any observable output of the builder). -/
def dGet (u : List (String × List String)) (k : String) : List String :=
  match u with
  | [] => []
  | (k', v) :: rest => if k' = k then v else dGet rest k

/-- `undocumented[domain].extend(xs)` on a `defaultdict(list)`: extend the
existing entry in place, or create the key at the end on first touch. -/
def dExtend (u : List (String × List String)) (k : String) (xs : List String) :
    List (String × List String) :=
  match u with
  | [] => [(k, xs)]
  | (k', v) :: rest =>
    if k' = k then (k', v ++ xs) :: rest else (k', v) :: dExtend rest k xs

namespace APICheckBuilder

/-- Lines 148-151 of `compile_regex`: prepend `^` unless the pattern already
starts with `^`, then append `$` unless the (possibly prepended) string
already ends with `$`. -/
def anchor_regex (regex : String) : String :=
  let regex := if pyStartsWith regex "^" then regex else "^" ++ regex
  if pyEndsWith regex "$" then regex else regex ++ "$"

/-- `compile_regex`: anchor, then `re.compile`.  On a compilation error the
Python method warns (`ERR_INVALID_REGEX`) and falls off the end, returning
`None` — hence the `Option`. -/
def compile_regex (regex : String) : Option Pattern :=
  reCompile (anchor_regex regex)

/-- `compile_regexes`: `None` results are kept in the list, exactly as in the
source. -/
def compile_regexes (regexes : List String) : List (Option Pattern) :=
  regexes.map compile_regex

/-- `init`: compile the configured ignore patterns with `DEFAULT_IGNORE`
always appended; read the domains; resolve the package name with Python's
`or` (both `None` and an empty string fall back to `project.lower()`); start
with an empty `undocumented` accumulator. -/
def init (config : Config) : APICheckBuilder :=
  { ignore_patterns := compile_regexes (config.apicheck_ignore_modules ++ DEFAULT_IGNORE)
    check_domains := config.apicheck_domains
    check_package :=
      match config.apicheck_package with
      | some s => if decide (s = "") then pyLower config.project else s
      | none => pyLower config.project
    undocumented := [] }

/-- `is_ignored_module`: `any(regex.match(module) for regex in ...)`.  The
generator is evaluated lazily left to right and short-circuits on the first
match; reaching a `None` entry raises `AttributeError`. -/
def is_ignored_module (patterns : List (Option Pattern)) (module : String) :
    Except String Bool :=
  match patterns with
  | [] => .ok false
  | none :: _ => .error "AttributeError: NoneType object has no attribute match"
  | some r :: rest =>
    if r.rmatch module then .ok true else is_ignored_module rest module

/-- The generator expression inside `find_undocumented`, consumed in order:
keep `mod` when `mod not in documented and not self.is_ignored_module(mod)`.
Python's `and` short-circuits, so a documented module never reaches
`is_ignored_module`. -/
def find_undocumented_filter (patterns : List (Option Pattern))
    (documented : List String) : List String → Except String (List String)
  | [] => .ok []
  | m :: ms =>
    if decide (m ∈ documented) then find_undocumented_filter patterns documented ms
    else
      match is_ignored_module patterns m with
      | .error e => .error e
      | .ok ig =>
        match find_undocumented_filter patterns documented ms with
        | .error e => .error e
        | .ok rest => .ok (if ig then rest else m :: rest)

/-- The `find_modules` class attribute: a dictionary with the single key
`'py'`; any other domain is a `KeyError` at lookup. -/
def find_modules (domain : String) (env : Env) (package : String) :
    Except String (List String) :=
  if decide (domain = "py") then find_python_modules env package
  else .error ("KeyError: " ++ domain)

/-- `find_undocumented(package, domain, documented)`. -/
def find_undocumented (st : APICheckBuilder) (env : Env) (package domain : String)
    (documented : List String) : Except String (List String) :=
  match find_modules domain env package with
  | .error e => .error e
  | .ok mods => find_undocumented_filter st.ignore_patterns documented mods

/-- `build_coverage(domain)`: extend `undocumented[domain]` with the filtered
discovery sequence for that domain. -/
def build_coverage (st : APICheckBuilder) (env : Env) (domain : String) :
    Except String APICheckBuilder :=
  match st.find_undocumented env st.check_package domain (env.domaindata domain) with
  | .error e => .error e
  | .ok mods => .ok { st with undocumented := dExtend st.undocumented domain mods }

/-- `format_undocumented_module`: the `MODULE_FORMAT` bullet. -/
def format_undocumented_module (module : String) : String :=
  "- " ++ darkgreen module

/-- `format_undocumented_domain`: the `DOMAIN_FORMAT` section for one domain. -/
def format_undocumented_domain (st : APICheckBuilder) (domain : String) : String :=
  DOMAIN_FORMAT_render (header domain)
    (pyJoin "\n" ((dGet st.undocumented domain).map format_undocumented_module))

/-- `format_undocumented_domains`: the `NOK_STATUS` report over the given
domains. -/
def format_undocumented_domains (st : APICheckBuilder) (domains : List String) : String :=
  NOK_STATUS_render (title ERR_MISSING)
    (pyJoin "\n" (domains.map (st.format_undocumented_domain)))

/-- `write_coverage(domains)`: `status = any(self.undocumented.values())`
(a dict value, being a list, is truthy exactly when non-empty); on failure
set `self.app.statuscode = 2` and print the report, otherwise print the
green `OK_STATUS` line and leave the status code alone.  The result is the
pair (status code after the call, printed text). -/
def write_coverage (st : APICheckBuilder) (domains : List String) (statuscode : Nat) :
    Nat × String :=
  if st.undocumented.any (fun kv => !kv.2.isEmpty) then
    (2, st.format_undocumented_domains domains)
  else
    (statuscode, green OK_STATUS)

/-- `write(*ignored)`: run `build_coverage` once per configured domain, then
`write_coverage` over the same domain list. -/
def write (st : APICheckBuilder) (env : Env) (statuscode : Nat) :
    Except String (APICheckBuilder × Nat × String) :=
  match st.check_domains.foldlM (fun s d => s.build_coverage env d) st with
  | .error e => .error e
  | .ok st' =>
    let r := st'.write_coverage st'.check_domains statuscode
    .ok (st', r.1, r.2)

/-- The dictionary serialised by `finish`: `{'undocumented': dict(self.undocumented)}`
(the `dict(...)` conversion preserves the entries and their order). -/
structure CoverageDict where
  undocumented : List (String × List String)
deriving DecidableEq

/-- `as_dict`. -/
def as_dict (st : APICheckBuilder) : CoverageDict :=
  ⟨st.undocumented⟩

/-- The bytes `pickle.dump` produces, modelled abstractly by the value it
serialises (`pickle` round-trips, so the constructor is injective). -/
inductive PickleData where
  | dump : CoverageDict → PickleData
deriving DecidableEq

/-- A file written in mode `'wb'`: the path and the full new contents
(opening with `'wb'` truncates, so no previous contents survive). -/
structure FileWrite where
  path : String
  contents : PickleData
deriving DecidableEq

/-- `finish`: always write `pickle.dump(self.as_dict())` to
`os.path.join(self.outdir, 'apicheck.pickle')`. -/
def finish (st : APICheckBuilder) (outdir : String) : FileWrite :=
  ⟨pathJoin outdir "apicheck.pickle", .dump st.as_dict⟩

/-- The contents of the pickle file after `finish`, as a function of whatever
the file held before: mode `'wb'` truncates, so the previous contents are
discarded. -/
def fileAfterFinish (_prev : Option PickleData) (st : APICheckBuilder)
    (outdir : String) : PickleData :=
  (st.finish outdir).contents

end APICheckBuilder

deriving instance DecidableEq for Except

/-! ## Derived notions and concrete scenarios used by the verification -/

/-- The Boolean the lazy `any(...)` of `is_ignored_module` computes when every
compiled pattern is present (no `None` entries reached). -/
def ignAny (patterns : List (Option Pattern)) (m : String) : Bool :=
  patterns.any fun q =>
    match q with
    | some r => r.rmatch m
    | none => false

/-- Projection of a full `write` run: the undocumented list recorded for a
domain together with the resulting status code (`none` on an uncaught
exception). -/
def runOutcome (r : Except String (APICheckBuilder × Nat × String)) (d : String) :
    Option (List String × Nat) :=
  match r with
  | .ok (st, code, _) => some (dGet st.undocumented d, code)
  | .error _ => none

/-- Projection of a `build_coverage` result: the undocumented list recorded
for a domain (`none` on an uncaught exception). -/
def bcUndoc (r : Except String APICheckBuilder) (d : String) : Option (List String) :=
  match r with
  | .ok st => some (dGet st.undocumented d)
  | .error _ => none

/-- Scenario of spec §8: tree `foo/__init__.py`, `foo/bar.py`,
`foo/tests/test_x.py`; `apicheck_ignore_modules` explicitly `[]`;
domain `py`; package `foo`. -/
def cfg3 : Config := ⟨[], ["py"], some "foo", "Foo"⟩

/-- The build environment for `cfg3`: `foo` resolves to
`/proj/foo/__init__.py`; the walk lists the package directory and its
`tests` subdirectory (which holds no `__init__.py`); only `foo` itself is
documented. -/
def env3 : Env :=
  ⟨"/cwd",
   fun s => if s = "foo" then some ⟨"foo", "/proj/foo/__init__.py"⟩ else none,
   fun s =>
     if s = "/proj/foo" then
       [("/proj/foo", ["__init__.py", "bar.py"]), ("/proj/foo/tests", ["test_x.py"])]
     else [],
   fun d => if d = "py" then ["foo"] else []⟩

/-- Scenario: an invalid regex in the ignore list, with the package `foo`
discoverable and fully undocumented. -/
def cfg2 : Config := ⟨["not a valid regex("], ["py"], some "foo", "Foo"⟩

/-- The build environment for `cfg2`. -/
def env2 : Env :=
  ⟨"/cwd",
   fun s => if s = "foo" then some ⟨"foo", "/proj/foo/__init__.py"⟩ else none,
   fun s => if s = "/proj/foo" then [("/proj/foo", ["__init__.py"])] else [],
   fun _ => []⟩

/-- Scenario: the configured package name resolves to no module. -/
def cfg9 : Config := ⟨[], ["py"], some "missingpkg", "Proj"⟩

/-- The build environment for `cfg9`: no name is importable. -/
def env9 : Env := ⟨"/cwd", fun _ => none, fun _ => [], fun _ => []⟩

/-- Scenario: an ignore pattern ending in an escaped dollar (`pkg\.a\$`),
whose trailing `$` is therefore a literal and not an end anchor, against a
package containing a module named `a$x`. -/
def cfg1c : Config := ⟨["pkg\\.a\\$"], ["py"], some "pkg", "P"⟩

/-- The build environment for `cfg1c`: the package directory holds
`__init__.py` and `a$x.py`; only `pkg` itself is documented. -/
def env1c : Env :=
  ⟨"/cwd",
   fun s => if s = "pkg" then some ⟨"pkg", "/proj/pkg/__init__.py"⟩ else none,
   fun s => if s = "/proj/pkg" then [("/proj/pkg", ["__init__.py", "a$x.py"])] else [],
   fun d => if d = "py" then ["pkg"] else []⟩

/-- A builder state with one non-empty undocumented entry, for witnesses. -/
def stW : APICheckBuilder := ⟨[], ["py", "rst"], "p", [("py", ["m"]), ("rst", [])]⟩

/-! ## Helper lemmas -/

theorem dGet_dExtend_self (u : List (String × List String)) (k : String) (xs : List String) :
    dGet (dExtend u k xs) k = dGet u k ++ xs := by
  induction u with
  | nil => simp [dGet, dExtend]
  | cons kv rest ih =>
    obtain ⟨k', v⟩ := kv
    by_cases h : k' = k
    · simp [dGet, dExtend, h]
    · simp [dGet, dExtend, h, ih]

theorem is_ignored_module_ok (patterns : List (Option Pattern)) (m : String)
    (h : ∀ q ∈ patterns, q.isSome) :
    APICheckBuilder.is_ignored_module patterns m = .ok (ignAny patterns m) := by
  induction patterns with
  | nil => simp [APICheckBuilder.is_ignored_module, ignAny]
  | cons q rest ih =>
    cases q with
    | none =>
      have := h none (by simp)
      simp at this
    | some r =>
      have hrest := ih (fun q hq => h q (List.mem_cons_of_mem _ hq))
      by_cases hr : r.rmatch m
      · simp [APICheckBuilder.is_ignored_module, ignAny, hr]
      · simp [APICheckBuilder.is_ignored_module, ignAny, hr, hrest]

theorem ignAny_eq_true_iff (patterns : List (Option Pattern)) (m : String) :
    ignAny patterns m = true ↔ ∃ r, some r ∈ patterns ∧ r.rmatch m = true := by
  induction patterns with
  | nil => simp [ignAny]
  | cons q rest ih =>
    cases q with
    | none =>
      simp only [ignAny, List.any_cons] at *
      simp only [List.mem_cons]
      constructor
      · intro hor
        rcases Bool.or_eq_true_iff.mp hor with h | h
        · exact absurd h (by simp)
        · obtain ⟨r, hr, hm⟩ := ih.mp h
          exact ⟨r, Or.inr hr, hm⟩
      · rintro ⟨r, hr | hr, hm⟩
        · exact absurd hr (by simp)
        · exact Bool.or_eq_true_iff.mpr (Or.inr (ih.mpr ⟨r, hr, hm⟩))
    | some r =>
      simp only [ignAny, List.any_cons] at *
      simp only [List.mem_cons]
      constructor
      · intro hor
        rcases Bool.or_eq_true_iff.mp hor with h | h
        · exact ⟨r, Or.inl rfl, h⟩
        · obtain ⟨r', hr', hm⟩ := ih.mp h
          exact ⟨r', Or.inr hr', hm⟩
      · rintro ⟨r', hr' | hr', hm⟩
        · cases Option.some.injEq .. ▸ hr' with
          | _ => exact Bool.or_eq_true_iff.mpr (Or.inl (by cases hr'; exact hm))
        · exact Bool.or_eq_true_iff.mpr (Or.inr (ih.mpr ⟨r', hr', hm⟩))

theorem find_undocumented_filter_ok (patterns : List (Option Pattern))
    (documented : List String) (mods : List String)
    (h : ∀ q ∈ patterns, q.isSome) :
    APICheckBuilder.find_undocumented_filter patterns documented mods =
      .ok (mods.filter fun x => !(decide (x ∈ documented)) && !(ignAny patterns x)) := by
  induction mods with
  | nil => simp [APICheckBuilder.find_undocumented_filter]
  | cons m ms ih =>
    by_cases hm : m ∈ documented
    · simp [APICheckBuilder.find_undocumented_filter, hm, ih, List.filter_cons]
    · by_cases hig : ignAny patterns m
      · simp [APICheckBuilder.find_undocumented_filter, hm,
              is_ignored_module_ok patterns m h, hig, ih, List.filter_cons]
      · simp [APICheckBuilder.find_undocumented_filter, hm,
              is_ignored_module_ok patterns m h, hig, ih, List.filter_cons]

/-- The closed form of a successful `build_coverage`: when every compiled
ignore pattern is present and discovery succeeds, the domain's entry is
extended with the discovery list filtered by documentation and ignoring. -/
theorem build_coverage_ok (env : Env) (st : APICheckBuilder) (d : String)
    (mods : List String)
    (hval : ∀ q ∈ st.ignore_patterns, q.isSome)
    (hmods : APICheckBuilder.find_modules d env st.check_package = .ok mods) :
    st.build_coverage env d = .ok
      { st with undocumented := dExtend st.undocumented d (mods.filter fun x =>
                  !(decide (x ∈ env.domaindata d)) && !(ignAny st.ignore_patterns x)) } := by
  have hff : ∀ ms, APICheckBuilder.find_undocumented_filter st.ignore_patterns
      (env.domaindata d) ms = .ok (ms.filter fun x =>
        !(decide (x ∈ env.domaindata d)) && !(ignAny st.ignore_patterns x)) :=
    fun ms => find_undocumented_filter_ok _ _ _ hval
  simp only [APICheckBuilder.build_coverage, APICheckBuilder.find_undocumented, hmods, hff]

/-- C1 (amended): for a domain whose entry is still empty and whose compiled
ignore patterns are all present, a single `build_coverage(domain)` succeeds
and a module name appears in that domain's entry of the Undocumented Report
iff discovery yielded it, it is not a key of the domain's documented-modules
mapping, and no compiled ignore pattern matches it (`re.match` semantics:
anchored at the start; full-string whenever the pattern's trailing `$` is a
genuine end anchor). -/
theorem build_coverage_membership (env : Env) (st : APICheckBuilder) (d m : String)
    (mods : List String)
    (hval : ∀ q ∈ st.ignore_patterns, q.isSome)
    (hfresh : dGet st.undocumented d = [])
    (hmods : APICheckBuilder.find_modules d env st.check_package = .ok mods) :
    ∃ st', st.build_coverage env d = .ok st' ∧
      (m ∈ dGet st'.undocumented d ↔
        m ∈ mods ∧ m ∉ env.domaindata d ∧
          ¬ ∃ r, some r ∈ st.ignore_patterns ∧ r.rmatch m = true) := by
  refine ⟨_, build_coverage_ok env st d mods hval hmods, ?_⟩
  rw [dGet_dExtend_self, hfresh]
  simp only [List.nil_append, List.mem_filter, Bool.and_eq_true, Bool.not_eq_true',
    decide_eq_false_iff_not, Bool.not_eq_true, and_assoc]
  constructor
  · rintro ⟨h1, h2, h3⟩
    refine ⟨h1, h2, ?_⟩
    rw [← ignAny_eq_true_iff]
    simp [h3]
  · rintro ⟨h1, h2, h3⟩
    refine ⟨h1, h2, ?_⟩
    rw [← ignAny_eq_true_iff] at h3
    simpa using h3

/-- C1 witness: the spec §8 first scenario, at module `foo.bar`. -/
theorem build_coverage_membership_witness :
    ∃ st', (APICheckBuilder.init cfg3).build_coverage env3 "py" = .ok st' ∧
      ("foo.bar" ∈ dGet st'.undocumented "py" ↔
        "foo.bar" ∈ (["foo", "foo.bar"] : List String) ∧
        "foo.bar" ∉ env3.domaindata "py" ∧
          ¬ ∃ r, some r ∈ (APICheckBuilder.init cfg3).ignore_patterns ∧
            r.rmatch "foo.bar" = true) :=
  build_coverage_membership env3 (APICheckBuilder.init cfg3) "py" "foo.bar"
    ["foo", "foo.bar"] (by decide) (by decide) (by decide)

/-- C1 counterexample: with the ignore pattern `pkg\.a\$` (whose trailing `$`
is escaped, hence a literal rather than an end anchor), the discovered,
undocumented module `pkg.a$x` is matched by `re.match` and therefore ignored,
even though no compiled ignore pattern fully matches it — refuting the
claimed iff, which would require `pkg.a$x` to appear in the report. -/
theorem apicheck_c1_counterexample :
    APICheckBuilder.find_modules "py" env1c (APICheckBuilder.init cfg1c).check_package =
      .ok ["pkg", "pkg.a$x"] ∧
    ("pkg.a$x" : String) ∉ env1c.domaindata "py" ∧
    ((APICheckBuilder.init cfg1c).ignore_patterns.all fun q =>
        match q with
        | some r => !r.core.fullmatch "pkg.a$x".data
        | none => true) = true ∧
    bcUndoc ((APICheckBuilder.init cfg1c).build_coverage env1c "py") "py" = some [] := by
  decide

/-- C8: `build_coverage` is not idempotent: from a fresh entry, one
invocation records the filtered discovery list `u` once, and a second
invocation for the same domain over the unchanged environment appends the
same list again, leaving `u ++ u`. -/
theorem build_coverage_not_idempotent (env : Env) (st : APICheckBuilder) (d : String)
    (mods : List String)
    (hval : ∀ q ∈ st.ignore_patterns, q.isSome)
    (hfresh : dGet st.undocumented d = [])
    (hmods : APICheckBuilder.find_modules d env st.check_package = .ok mods) :
    ∃ u st₁ st₂,
      st.build_coverage env d = .ok st₁ ∧ dGet st₁.undocumented d = u ∧
      st₁.build_coverage env d = .ok st₂ ∧ dGet st₂.undocumented d = u ++ u := by
  have hbc1 := build_coverage_ok env st d mods hval hmods
  have hbc2 := build_coverage_ok env
    { st with undocumented := dExtend st.undocumented d (mods.filter fun x =>
                !(decide (x ∈ env.domaindata d)) && !(ignAny st.ignore_patterns x)) }
    d mods hval hmods
  refine ⟨mods.filter fun x =>
      !(decide (x ∈ env.domaindata d)) && !(ignAny st.ignore_patterns x),
    _, _, hbc1, ?_, hbc2, ?_⟩
  · simp only [dGet_dExtend_self, hfresh, List.nil_append]
  · simp only [dGet_dExtend_self, hfresh, List.nil_append]

/-- C8 witness: the spec §8 first scenario run twice for domain `py`. -/
theorem build_coverage_not_idempotent_witness :
    ∃ u st₁ st₂,
      (APICheckBuilder.init cfg3).build_coverage env3 "py" = .ok st₁ ∧
      dGet st₁.undocumented "py" = u ∧
      st₁.build_coverage env3 "py" = .ok st₂ ∧
      dGet st₂.undocumented "py" = u ++ u :=
  build_coverage_not_idempotent env3 (APICheckBuilder.init cfg3) "py" ["foo", "foo.bar"]
    (by decide) (by decide) (by decide)

/-- Splitting a `sep.join`: every member's image occurs contiguously in the
joined string. -/
theorem pyJoin_mem_split (sep : String) (f : String → String) (l : List String)
    (d : String) (h : d ∈ l) :
    ∃ pre post, pyJoin sep (l.map f) = pre ++ f d ++ post := by
  induction l with
  | nil => cases h
  | cons x rest ih =>
    rcases List.mem_cons.mp h with rfl | hd
    · cases rest with
      | nil =>
        exact ⟨"", "", by simp [pyJoin, String.empty_append, String.append_empty]⟩
      | cons y r =>
        refine ⟨"", sep ++ pyJoin sep ((y :: r).map f), ?_⟩
        simp only [List.map_cons, pyJoin, String.empty_append]
        rw [String.append_assoc]
    · have hrest : rest ≠ [] := List.ne_nil_of_mem hd
      cases rest with
      | nil => exact absurd rfl hrest
      | cons y r =>
        obtain ⟨pre, post, hp⟩ := ih hd
        refine ⟨f x ++ sep ++ pre, post, ?_⟩
        simp only [List.map_cons, pyJoin] at hp ⊢
        rw [hp, ← String.append_assoc, ← String.append_assoc]

/-- C6: after the per-domain passes, `write_coverage` sets the status code to
exactly 2 and prints the formatted failure report iff some domain's
undocumented list is non-empty; when every list is empty it prints the fixed
success line and leaves the status code unchanged. -/
theorem write_coverage_status (st : APICheckBuilder) (domains : List String) (code : Nat) :
    ((∃ kv ∈ st.undocumented, kv.2 ≠ []) →
      st.write_coverage domains code = (2, st.format_undocumented_domains domains)) ∧
    ((∀ kv ∈ st.undocumented, kv.2 = []) →
      st.write_coverage domains code = (code, green OK_STATUS)) := by
  constructor
  · rintro ⟨kv, hmem, hne⟩
    have : st.undocumented.any (fun kv => !kv.2.isEmpty) = true :=
      List.any_eq_true.mpr ⟨kv, hmem, by simpa using hne⟩
    simp [APICheckBuilder.write_coverage, this]
  · intro hall
    have : st.undocumented.any (fun kv => !kv.2.isEmpty) = false := by
      rw [← Bool.not_eq_true, List.any_eq_true]
      rintro ⟨kv, hmem, hne⟩
      simp [hall kv hmem] at hne
    simp [APICheckBuilder.write_coverage, this]

/-- C6 witness: a state with one non-empty entry prints the failure report
with status code 2. -/
theorem write_coverage_status_witness :
    APICheckBuilder.write_coverage stW ["py", "rst"] 0 =
      (2, stW.format_undocumented_domains ["py", "rst"]) :=
  (write_coverage_status stW ["py", "rst"] 0).1 ⟨("py", ["m"]), by decide, by decide⟩

/-- C7: `finish` always writes — whatever the accumulator holds, and whatever
the file held before — the pickled `{'undocumented': dict(self.undocumented)}`
to `<output-dir>/apicheck.pickle`, discarding any previous contents. -/
theorem finish_pickle_output (st : APICheckBuilder) (outdir : String)
    (prev prev' : Option APICheckBuilder.PickleData) :
    (st.finish outdir).path = pathJoin outdir "apicheck.pickle" ∧
    APICheckBuilder.fileAfterFinish prev st outdir = .dump ⟨st.undocumented⟩ ∧
    APICheckBuilder.fileAfterFinish prev st outdir =
      APICheckBuilder.fileAfterFinish prev' st outdir :=
  ⟨rfl, rfl, rfl⟩

/-- C10: whenever some checked domain has undocumented modules, the printed
failure report contains the section of every domain in the checked-domains
list, and a domain with an empty undocumented list contributes its header
followed by an empty module list. -/
theorem report_contains_all_domains (st : APICheckBuilder) (code : Nat) (d : String)
    (hne : st.undocumented.any (fun kv => !kv.2.isEmpty) = true)
    (hd : d ∈ st.check_domains) :
    st.write_coverage st.check_domains code =
      (2, st.format_undocumented_domains st.check_domains) ∧
    (∃ pre post, st.format_undocumented_domains st.check_domains =
      pre ++ st.format_undocumented_domain d ++ post) ∧
    (dGet st.undocumented d = [] →
      st.format_undocumented_domain d = header d ++ "\n\n" ++ "\n") := by
  refine ⟨?_, ?_, ?_⟩
  · simp [APICheckBuilder.write_coverage, hne]
  · obtain ⟨pre, post, hp⟩ :=
      pyJoin_mem_split "\n" st.format_undocumented_domain st.check_domains d hd
    refine ⟨"\n" ++ title ERR_MISSING ++ "\n\n" ++ pre, post, ?_⟩
    simp only [APICheckBuilder.format_undocumented_domains, NOK_STATUS_render, hp]
    rw [← String.append_assoc, ← String.append_assoc]
  · intro hempty
    simp [APICheckBuilder.format_undocumented_domain, DOMAIN_FORMAT_render, hempty,
      pyJoin, String.append_empty]

/-- C10 witness: both domains of `stW` appear as sections of the report, the
empty `rst` one as a bare header. -/
theorem report_contains_all_domains_witness :
    APICheckBuilder.write_coverage stW stW.check_domains 0 =
      (2, stW.format_undocumented_domains stW.check_domains) ∧
    (∃ pre post, stW.format_undocumented_domains stW.check_domains =
      pre ++ stW.format_undocumented_domain "rst" ++ post) ∧
    (dGet stW.undocumented "rst" = [] →
      stW.format_undocumented_domain "rst" = header "rst" ++ "\n\n" ++ "\n") :=
  report_contains_all_domains stW 0 "rst" (by decide) (by decide)

/-- C2 (code bug): an invalid ignore pattern makes `compile_regex` warn and
return `None`; the `None` is kept in `ignore_patterns`, and the first
undocumented-candidate module that reaches it makes `is_ignored_module`
evaluate `None.match`, so the whole build aborts with an `AttributeError`
instead of behaving as if the pattern had been omitted. -/
theorem invalid_regex_aborts_run :
    APICheckBuilder.compile_regex "not a valid regex(" = none ∧
    (APICheckBuilder.init cfg2).ignore_patterns.head? = some none ∧
    APICheckBuilder.write (APICheckBuilder.init cfg2) env2 0 =
      .error "AttributeError: NoneType object has no attribute match" := by
  decide

/-- C3 counterexample: in the spec §8 second scenario the report for `py` is
`[foo.bar]` with status code 2 — not the claimed
`[foo.bar, foo.tests, foo.tests.test_x]`. -/
theorem apicheck_c3_counterexample :
    runOutcome (APICheckBuilder.write (APICheckBuilder.init cfg3) env3 0) "py" =
      some (["foo.bar"], 2) ∧
    runOutcome (APICheckBuilder.write (APICheckBuilder.init cfg3) env3 0) "py" ≠
      some (["foo.bar", "foo.tests", "foo.tests.test_x"], 2) := by
  decide

/-- C3 (amended): with `apicheck_ignore_modules` explicitly `[]` the default
ignore pattern is still merged in (it is never overridden), `foo/tests` is
not a package (no `__init__.py`) so `foo.tests` and `foo.tests.test_x` are
never discovered, and the run reports exactly `[foo.bar]` with status code
set to 2. -/
theorem apicheck_c3_scenario :
    (APICheckBuilder.init cfg3).ignore_patterns =
      APICheckBuilder.compile_regexes DEFAULT_IGNORE ∧
    runOutcome (APICheckBuilder.write (APICheckBuilder.init cfg3) env3 0) "py" =
      some (["foo.bar"], 2) := by
  decide

/-- C9 counterexample: with an unresolvable configured package, `init`
completes normally (it only stores the name and never attempts the import),
and the fatal `ImportError` is raised later, by the `write` phase. -/
theorem apicheck_c9_counterexample :
    (APICheckBuilder.init cfg9).check_package = "missingpkg" ∧
    (APICheckBuilder.init cfg9).check_domains = ["py"] ∧
    (APICheckBuilder.init cfg9).undocumented = [] ∧
    APICheckBuilder.write (APICheckBuilder.init cfg9) env9 0 =
      .error "ImportError: No module named missingpkg" := by
  decide

/-- C9 (amended): when the configured package identifier cannot be resolved,
setup completes normally and the run instead fails fatally during the build
(`write`) phase, when module discovery for the checked domain begins — the
package import is the first step of discovery, so no directory is walked. -/
theorem unresolvable_package_fails_in_write (cfg : Config) (env : Env) (code : Nat)
    (hdoms : cfg.apicheck_domains = ["py"])
    (hres : env.imports (APICheckBuilder.init cfg).check_package = none) :
    APICheckBuilder.write (APICheckBuilder.init cfg) env code =
      .error ("ImportError: No module named " ++ (APICheckBuilder.init cfg).check_package) := by
  have hcd : (APICheckBuilder.init cfg).check_domains = ["py"] := hdoms
  simp [APICheckBuilder.write, hcd, List.foldlM, APICheckBuilder.build_coverage,
    APICheckBuilder.find_undocumented, APICheckBuilder.find_modules,
    find_python_modules, hres]

/-- C9 witness: the amended statement at the concrete unresolvable scenario. -/
theorem unresolvable_package_fails_in_write_witness :
    APICheckBuilder.write (APICheckBuilder.init cfg9) env9 0 =
      .error ("ImportError: No module named " ++ (APICheckBuilder.init cfg9).check_package) :=
  unresolvable_package_fails_in_write cfg9 env9 0 rfl rfl

/-- Prepending the `^` anchor does not change whether a string ends in `$`. -/
theorem pyEndsWith_hat (p : String) : pyEndsWith ("^" ++ p) "$" = pyEndsWith p "$" := by
  have hdata : ("^" ++ p).data = '^' :: p.data := by
    rw [String.data_append]
    rfl
  unfold pyEndsWith
  rw [hdata, List.reverse_cons]
  show decide ((p.data.reverse ++ ['^']).take 1 = ['$']) =
    decide (p.data.reverse.take 1 = ['$'])
  cases hrev : p.data.reverse <;> rfl

/-- The two anchoring steps of `compile_regex`, in the spec's phrasing:
prepend `^` unless the pattern already starts with `^`, and append `$`
unless the pattern already ends with `$`. -/
theorem anchor_regex_eq (p : String) :
    APICheckBuilder.anchor_regex p =
      (if pyStartsWith p "^" then "" else "^") ++ p ++
        (if pyEndsWith p "$" then "" else "$") := by
  unfold APICheckBuilder.anchor_regex
  by_cases h1 : pyStartsWith p "^" = true
  · by_cases h2 : pyEndsWith p "$" = true
    · simp [h1, h2, String.empty_append, String.append_empty]
    · simp [h1, h2, String.empty_append]
  · by_cases h2 : pyEndsWith p "$" = true
    · simp [h1, h2, pyEndsWith_hat, String.append_empty]
    · simp [h1, h2, pyEndsWith_hat]

/-- C5 (amended): compiling prepends `^` unless the pattern already starts
with `^` and appends `$` unless it already ends with `$`; a module is
classified ignored iff at least one compiled pattern in the active set
matches it from the start (logical OR across patterns, each evaluated
independently); and this matching is full-string whenever the compiled
pattern's trailing `$` is a genuine end anchor (a pattern whose trailing `$`
is escaped matches by prefix instead). -/
theorem compile_regex_anchoring (p m : String) (r : Pattern)
    (pats : List (Option Pattern))
    (_hc : APICheckBuilder.compile_regex p = some r)
    (hval : ∀ q ∈ pats, q.isSome) :
    APICheckBuilder.anchor_regex p =
      (if pyStartsWith p "^" then "" else "^") ++ p ++
        (if pyEndsWith p "$" then "" else "$") ∧
    (r.anchEnd = true → r.rmatch m = r.core.fullmatch m.data) ∧
    APICheckBuilder.is_ignored_module pats m = .ok (ignAny pats m) ∧
    (APICheckBuilder.is_ignored_module pats m = .ok true ↔
      ∃ q, some q ∈ pats ∧ q.rmatch m = true) := by
  refine ⟨anchor_regex_eq p, ?_, is_ignored_module_ok pats m hval, ?_⟩
  · intro h
    simp [Pattern.rmatch, h]
  · rw [is_ignored_module_ok pats m hval]
    constructor
    · intro h
      have h' : ignAny pats m = true := by injection h
      exact (ignAny_eq_true_iff pats m).mp h'
    · intro hx
      have h' : ignAny pats m = true := (ignAny_eq_true_iff pats m).mpr hx
      rw [h']

/-- C5 witness: the pattern `ab` against the module name `ab`, with the
active set holding just its compiled form. -/
theorem compile_regex_anchoring_witness :
    APICheckBuilder.anchor_regex "ab" =
      (if pyStartsWith "ab" "^" then "" else "^") ++ "ab" ++
        (if pyEndsWith "ab" "$" then "" else "$") ∧
    ((⟨Regex.cat (Regex.lit 'a') (Regex.cat (Regex.lit 'b') Regex.eps), true⟩ :
        Pattern).anchEnd = true →
      Pattern.rmatch ⟨Regex.cat (Regex.lit 'a') (Regex.cat (Regex.lit 'b') Regex.eps),
          true⟩ "ab" =
        Regex.fullmatch (Regex.cat (Regex.lit 'a') (Regex.cat (Regex.lit 'b') Regex.eps))
          "ab".data) ∧
    APICheckBuilder.is_ignored_module
      [some ⟨Regex.cat (Regex.lit 'a') (Regex.cat (Regex.lit 'b') Regex.eps), true⟩] "ab" =
      .ok (ignAny
        [some ⟨Regex.cat (Regex.lit 'a') (Regex.cat (Regex.lit 'b') Regex.eps), true⟩] "ab") ∧
    (APICheckBuilder.is_ignored_module
        [some ⟨Regex.cat (Regex.lit 'a') (Regex.cat (Regex.lit 'b') Regex.eps), true⟩] "ab" =
        .ok true ↔
      ∃ q, some q ∈
          [some (⟨Regex.cat (Regex.lit 'a') (Regex.cat (Regex.lit 'b') Regex.eps), true⟩ :
            Pattern)] ∧
        q.rmatch "ab" = true) :=
  compile_regex_anchoring "ab" "ab"
    ⟨Regex.cat (Regex.lit 'a') (Regex.cat (Regex.lit 'b') Regex.eps), true⟩
    [some ⟨Regex.cat (Regex.lit 'a') (Regex.cat (Regex.lit 'b') Regex.eps), true⟩]
    (by decide) (by decide)

/-- C5 counterexample: the pattern `m\$` (valid on its own) already ends in
the character `$`, so no anchor is appended; its trailing `$` is escaped,
hence a literal.  The module name `m$1` is then classified ignored by
`re.match` although the compiled pattern does not fully match it. -/
theorem apicheck_c5_counterexample :
    (APICheckBuilder.compile_regex "m\\$").map (fun r => r.rmatch "m$1") = some true ∧
    (APICheckBuilder.compile_regex "m\\$").map
      (fun r => r.core.fullmatch "m$1".data) = some false ∧
    APICheckBuilder.is_ignored_module [APICheckBuilder.compile_regex "m\\$"] "m$1" =
      .ok true := by
  decide

/-- Slicing a string from its own length leaves nothing
(`dirpath[len(abs):]` at the walk root). -/
theorem pySliceFrom_length (s : String) : pySliceFrom s s.length = "" := by
  unfold pySliceFrom
  refine String.ext ?_
  show s.data.drop s.data.length = ([] : List Char)
  exact List.drop_length s.data

/-- A string ending in `.py` has at least three characters. -/
theorem pyEndsWith_py_imp_len (f : String) (h : pyEndsWith f ".py" = true) :
    3 ≤ f.data.length := by
  unfold pyEndsWith at h
  rw [decide_eq_true_eq] at h
  have hlen := congrArg List.length h
  rw [List.length_take, List.length_reverse, List.length_reverse] at hlen
  have h3 : (".py" : String).data.length = 3 := rfl
  rw [h3] at hlen
  omega

/-- Dropping the three characters of `.py` from a concatenation removes them
from the right-hand component. -/
theorem pyDropRight_append3 (a f : String) (h : 3 ≤ f.data.length) :
    pyDropRight (a ++ f) 3 = a ++ pyDropRight f 3 := by
  unfold pyDropRight
  refine String.ext ?_
  show (a ++ f).data.take ((a ++ f).data.length - 3) =
    a.data ++ f.data.take (f.data.length - 3)
  rw [String.data_append, List.length_append]
  have h' : a.data.length + f.data.length - 3 = a.data.length + (f.data.length - 3) := by
    omega
  rw [h', List.take_append]

/-- A `filterMap` whose function is an `if`-guarded `some` is the guarded
`filter` followed by a `map`. -/
theorem filterMap_guard {α β : Type} (p : α → Bool) (g : α → β) (l : List α) :
    l.filterMap (fun x => if p x then some (g x) else none) = (l.filter p).map g := by
  induction l with
  | nil => rfl
  | cons x xs ih =>
    by_cases hx : p x = true
    · simp [List.filterMap_cons, List.filter_cons, hx, ih]
    · simp [List.filterMap_cons, List.filter_cons, hx, ih]

/-- Directories without the package-marker file contribute nothing to the
discovery walk. -/
theorem discoverPy_no_marker (dist abs : String) (w : List (String × List String))
    (h : ∀ e ∈ w, ("__init__.py" : String) ∉ e.2) :
    discoverPy dist abs w = [] := by
  induction w with
  | nil => rfl
  | cons e rest ih =>
    have he := h e (by simp)
    have ih' := ih (fun x hx => h x (List.mem_cons_of_mem _ hx))
    simp only [discoverPy] at ih' ⊢
    rw [List.map_cons, List.flatten_cons, if_neg (by simpa using he), List.nil_append, ih']

/-- Discovery over a walk whose root carries the marker and whose other
directories do not: the distribution name itself, then one dotted name per
non-marker `.py` file of the root. -/
theorem discoverPy_root (dist abs : String) (files : List String)
    (rest : List (String × List String))
    (hmark : ("__init__.py" : String) ∈ files)
    (hnosub : ∀ e ∈ rest, ("__init__.py" : String) ∉ e.2)
    (hdist : pyReplaceChar dist '/' '.' = dist) :
    discoverPy dist abs ((abs, files) :: rest) =
      dist :: (files.filter fun f => pyEndsWith f ".py" && decide (f ≠ "__init__.py")).map
        (fun f => dist ++ "." ++ pyDropRight f 3) := by
  have hpkg : pyReplaceChar (dist ++ pySliceFrom abs abs.length) '/' '.' = dist := by
    rw [pySliceFrom_length, String.append_empty, hdist]
  have hrest := discoverPy_no_marker dist abs rest hnosub
  have hcond : decide (("__init__.py" : String) ∈ files) = true := by simpa using hmark
  simp only [discoverPy] at hrest ⊢
  rw [List.map_cons, List.flatten_cons, hpkg, if_pos hcond, hrest, List.append_nil]
  rw [filterMap_guard (fun f => pyEndsWith f ".py" && decide (f ≠ "__init__.py"))
    (fun f => pyDropRight (dist ++ "." ++ f) 3) files]
  refine congrArg (dist :: ·) (List.map_congr_left ?_)
  intro f hf
  have hpy : pyEndsWith f ".py" = true := by
    have hb := (List.mem_filter.mp hf).2
    simp only [Bool.and_eq_true] at hb
    exact hb.1
  exact pyDropRight_append3 (dist ++ ".") f (pyEndsWith_py_imp_len f hpy)

/-- C4: over a package directory with the marker file, `N` non-marker `.py`
files, and no subpackages anywhere below it, `find_python_modules` yields
exactly `N + 1` names: the distribution name itself, then, in file order,
the distribution name, a dot, and each file name without its `.py`
extension. -/
theorem find_python_modules_flat_package (env : Env) (package : String) (m : PyModule)
    (files : List String) (rest : List (String × List String)) (N : Nat)
    (himp : env.imports package = some m)
    (hwalk : env.walk (dist_root env.cwd m) = (dist_root env.cwd m, files) :: rest)
    (hmark : ("__init__.py" : String) ∈ files)
    (hnosub : ∀ e ∈ rest, ("__init__.py" : String) ∉ e.2)
    (hdist : pyReplaceChar (basename (dist_root env.cwd m)) '/' '.' =
      basename (dist_root env.cwd m))
    (hN : N = (files.filter fun f => pyEndsWith f ".py" && decide (f ≠ "__init__.py")).length) :
    find_python_modules env package = .ok
      (basename (dist_root env.cwd m) ::
        (files.filter fun f => pyEndsWith f ".py" && decide (f ≠ "__init__.py")).map
          (fun f => basename (dist_root env.cwd m) ++ "." ++ pyDropRight f 3)) ∧
    ∃ mods, find_python_modules env package = .ok mods ∧ mods.length = N + 1 := by
  have key : find_python_modules env package = .ok
      (discoverPy (basename (dist_root env.cwd m)) (dist_root env.cwd m)
        (env.walk (dist_root env.cwd m))) := by
    simp [find_python_modules, himp]
  rw [hwalk, discoverPy_root _ _ _ _ hmark hnosub hdist] at key
  refine ⟨key, _, key, ?_⟩
  simp [List.length_map, hN]

/-- C4 witness: the package `foo` with the single module file `bar.py` and a
marker-less `tests` directory below it: two names, `foo` and `foo.bar`. -/
theorem find_python_modules_flat_package_witness :
    find_python_modules env3 "foo" = .ok
      (basename (dist_root env3.cwd ⟨"foo", "/proj/foo/__init__.py"⟩) ::
        ((["__init__.py", "bar.py"] : List String).filter fun f =>
            pyEndsWith f ".py" && decide (f ≠ "__init__.py")).map
          (fun f => basename (dist_root env3.cwd ⟨"foo", "/proj/foo/__init__.py"⟩) ++ "." ++
            pyDropRight f 3)) ∧
    ∃ mods, find_python_modules env3 "foo" = .ok mods ∧ mods.length = 1 + 1 :=
  find_python_modules_flat_package env3 "foo" ⟨"foo", "/proj/foo/__init__.py"⟩
    ["__init__.py", "bar.py"] [("/proj/foo/tests", ["test_x.py"])] 1
    (by decide) (by decide) (by decide) (by decide) (by decide) (by decide)
